import Mathlib

/-!
Verification development for the veoflow-studio repository.

The definitions below are shallow embeddings of the repository's code:
the zustand scene store and the tanstack-query hooks of the Next.js
frontend, the `ApiClient` of `src/frontend/src/lib/api.ts`, and the
render-orchestration backend.  The backend Python services
(`flow_controller.py`, `render_manager.py`, the profile store and the
task status endpoint) are not part of the shipped sources, only their
documentation is; the corresponding definitions are modelled from the
spec and are marked as such in their doc comments.
-/

namespace VeoFlow

/-! ## Scene store (frontend `sceneStore`, zustand) -/

/-- Scene record as held by the frontend scene store: the `Scene`
interface of the zustand store (`useSceneStore`). -/
structure Scene where
  id : String
  project_id : String
  number : Int
  prompt : String
  video_path : Option String := none
  status : String
deriving DecidableEq, Repr

/-- State of the zustand scene store: its `scenes` array. -/
structure SceneStoreState where
  scenes : List Scene
deriving DecidableEq, Repr

/-- The store's `updateScene (id, updates)`: maps over `scenes`,
merging `updates` into the scene whose `id` matches.  The partial
update is represented as a function on the record. -/
def updateScene (st : SceneStoreState) (sceneId : String)
    (upd : Scene → Scene) : SceneStoreState :=
  ⟨st.scenes.map fun s => if s.id == sceneId then upd s else s⟩

/-- The store's `deleteScene (id)`: filters out scenes with that id. -/
def deleteScene (st : SceneStoreState) (sceneId : String) : SceneStoreState :=
  ⟨st.scenes.filter fun s => !(s.id == sceneId)⟩

/-- The store's `getScene (id)`: `find` over the `scenes` array. -/
def getScene (st : SceneStoreState) (sceneId : String) : Option Scene :=
  st.scenes.find? fun s => s.id == sceneId

/-- The store's `getScenesByProject (projectId)`: filters the `scenes`
array by `project_id` and sorts ascending by `number` (the JS
comparator `(a, b) => a.number - b.number`).  The JS `sort` runs on the
fresh array produced by `filter`, so the store state itself is
returned unchanged; the state is threaded explicitly to make that
visible. -/
def getScenesByProject (st : SceneStoreState) (projectId : String) :
    List Scene × SceneStoreState :=
  ((st.scenes.filter fun s => s.project_id == projectId).mergeSort
    (fun a b => decide (a.number ≤ b.number)), st)

/-! ## Render action of the project page and `useScenes` -/

/-- Disabled condition of the per-scene Render button in
`project/[id]/page.tsx`:
`disabled={scene.status === 'rendering' || scene.status === 'completed'}`. -/
def renderButtonDisabled (status : String) : Bool :=
  status == "rendering" || status == "completed"

/-- Store write performed by `renderMutation.onSuccess` in
`useScenes.ts`:
`useSceneStore.getState().updateScene(variables.sceneId, { status: 'rendering' })`. -/
def renderOnSuccessStoreUpdate (st : SceneStoreState) (sceneId : String) :
    SceneStoreState :=
  updateScene st sceneId fun s => { s with status := "rendering" }

/-- One UI-level render step for the scene shown on the project page:
the Render button for the scene gates `handleRender`, and a successful
render request performs the `onSuccess` store write.  If the button is
disabled (or no scene with the id exists) the store is untouched. -/
def uiRenderStep (st : SceneStoreState) (sceneId : String) : SceneStoreState :=
  match st.scenes.find? (fun s => s.id == sceneId) with
  | none => st
  | some s =>
    if renderButtonDisabled s.status then st
    else renderOnSuccessStoreUpdate st sceneId

/-- Terminal task/scene statuses of the spec: `completed` and `failed`. -/
def isTerminalStatus (status : String) : Bool :=
  status == "completed" || status == "failed"

/-- The monotonicity claim, stated over the embedded render flow: once
a scene's status is terminal, the render flow performs no further
status write on the store. -/
def statusMonotonicRenderClaim : Prop :=
  ∀ (st : SceneStoreState) (sceneId : String) (s : Scene),
    st.scenes.find? (fun x => x.id == sceneId) = some s →
    isTerminalStatus s.status = true →
    uiRenderStep st sceneId = st

/-- A scene in terminal status `failed`, as rendered on the project page. -/
def sceneFailedExample : Scene :=
  { id := "scene-1", project_id := "proj-1", number := 1,
    prompt := "a lion walking", status := "failed" }

/-- A store holding exactly the failed scene. -/
def storeFailedExample : SceneStoreState := ⟨[sceneFailedExample]⟩

/-! ## `ApiClient` of `src/frontend/src/lib/api.ts` -/

/-- Top-level members of the exported `ApiClient` instance, as declared
in `api.ts` (`stitch` is a function-valued member, the rest are member
groups of methods). -/
def apiClientTopLevelMembers : List String :=
  ["projects", "scenes", "characters", "render", "queue", "stitch",
   "setup", "logs"]

/-- Methods of each member group of `ApiClient`, as declared in
`api.ts`. -/
def apiClientGroupMethods : String → List String
  | "projects" => ["list", "get", "create", "update", "delete", "generateScript"]
  | "scenes" => ["list", "get", "create", "update", "delete", "render"]
  | "characters" => ["list", "get", "create", "update", "delete"]
  | "render" => ["getTaskStatus", "cancel"]
  | "queue" => ["list", "stats"]
  | "setup" =>
    ["getStatus", "testConnection", "openBrowser", "getChromeProfile",
     "createProfile", "listProfiles", "getProfile", "deleteProfile",
     "setActiveProfile", "openProfile", "openGmail", "openFlow",
     "getLoginStatus", "confirmLogin", "closeProfile"]
  | "logs" => ["getLogs", "getRecentLogs", "clearLogs"]
  | _ => []

/-- Result of evaluating a JavaScript call `api.<group>.<fn>(...)`:
either the method is defined and the call proceeds, or the access
throws a `TypeError` (reading a method of an `undefined` group, or
calling an `undefined` member of an existing group). -/
inductive JsCallResult where
  | proceeds
  | typeError (description : String)
deriving DecidableEq, Repr

/-- Whether a `JsCallResult` reached the error branch. -/
def JsCallResult.isOk : JsCallResult → Bool
  | .proceeds => true
  | .typeError _ => false

/-- Evaluates a member call `api.<group>.<fn>(...)` against the members
that `ApiClient` actually defines. -/
def callApiMember (group fn : String) : JsCallResult :=
  if apiClientTopLevelMembers.contains group then
    if (apiClientGroupMethods group).contains fn then .proceeds
    else .typeError ("api." ++ group ++ "." ++ fn ++ " is not a function")
  else .typeError ("api." ++ group ++ " is undefined")

/-- Member paths the frontend call sites require of `api`:
`handleRenderAll` in `project/[id]/page.tsx` uses `render.renderAll`;
`useScript` / `useUpdateScript` use `scripts.get` / `scripts.update`;
`useGenerateScript` uses `projects.generateScriptFromParameters`; the
settings page uses `aiConfig.get` / `aiConfig.update`. -/
def frontendRequiredApiMembers : List (String × String) :=
  [("render", "renderAll"), ("scripts", "get"), ("scripts", "update"),
   ("projects", "generateScriptFromParameters"),
   ("aiConfig", "get"), ("aiConfig", "update")]

/-! ## `ApiClient.request` -/

/-- The slice of a parsed JSON response body that `request` inspects:
its optional `detail` field (`none` models an absent / `undefined`
field). -/
structure JsonBody where
  detail : Option String
deriving DecidableEq, Repr

/-- The empty object `{}` that `request` resolves to on non-JSON
responses. -/
def emptyJsonObject : JsonBody := ⟨none⟩

/-- An HTTP response as observed by `request`: the `ok` flag, status
code and text, the `content-type` header (`none` when absent), and the
body's JSON parse result (`none` when the body cannot be parsed as
JSON). -/
structure HttpResponse where
  ok : Bool
  status : Nat
  statusText : String
  contentType : Option String
  jsonBody : Option JsonBody
deriving DecidableEq, Repr

/-- Outcome of `request`: the promise resolves with a body or rejects
with an `Error` carrying a message. -/
inductive RequestResult where
  | resolved (body : JsonBody)
  | rejected (message : String)
deriving DecidableEq, Repr

/-- String containment test, the embedding of JavaScript
`String.prototype.includes`. -/
def strIncludes (s pat : String) : Bool :=
  decide (pat.toList <:+: s.toList)

/-- The method `ApiClient.request` of `api.ts`, after `fetch` returned
`response`.
On `!response.ok` the body is parsed with
`response.json().catch(() => ({ detail: "HTTP {status}: {statusText}" }))`
and the promise rejects with `new Error(error.detail || 'API request failed')`.
On an ok response it resolves with the parsed JSON body when the
`content-type` header includes `application/json`, and with `{}`
otherwise.  The message of an engine-raised JSON parse error on the ok
path is abstracted as a fixed string (the claim set never inspects it). -/
def request (r : HttpResponse) : RequestResult :=
  if r.ok then
    match r.contentType with
    | some ct =>
      if strIncludes ct "application/json" then
        match r.jsonBody with
        | some b => .resolved b
        | none => .rejected "JSON parse error"
      else .resolved emptyJsonObject
    | none => .resolved emptyJsonObject
  else
    let errDetail : String :=
      match r.jsonBody with
      | none => "HTTP " ++ toString r.status ++ ": " ++ r.statusText
      | some b => b.detail.getD ""
    .rejected (if errDetail == "" then "API request failed" else errDetail)

/-- Whether the `content-type` header of a response includes
`application/json` (a missing header never does). -/
def contentTypeIsJson (r : HttpResponse) : Bool :=
  match r.contentType with
  | some ct => strIncludes ct "application/json"
  | none => false

/-! ## Render task status (backend status-read API and `useRenderTask`) -/

/-- The four task statuses of the spec's Render Task data model. -/
inductive TaskStatus where
  | pending
  | rendering
  | completed
  | failed
deriving DecidableEq, Repr

/-- Lower-case status string as stored on the Scene record and served
by the backend. -/
def TaskStatus.toStatusString : TaskStatus → String
  | .pending => "pending"
  | .rendering => "rendering"
  | .completed => "completed"
  | .failed => "failed"

/-- Modelled from the spec: the persisted Render Task record
(`task id, scene id, project id, prompt, status, result artifact path,
error summary, attempt counters for navigation and generation
retries`).  The backend model class is not among the shipped sources. -/
structure RenderTaskRecord where
  taskId : String
  sceneId : String
  projectId : String
  prompt : String
  status : TaskStatus
  artifactPath : Option String
  errorSummary : Option String
  navAttempts : Nat
  genAttempts : Nat
deriving DecidableEq, Repr

/-- The record `{status, artifactPath?, error?}` that the status-read
API returns. -/
structure TaskStatusView where
  status : String
  artifactPath : Option String
  error : Option String
deriving DecidableEq, Repr

/-- Modelled from the spec: the projection of a Render Task record that
`getTaskStatus` serves — the status string, the artifact path on
success, and a single consolidated error string on failure.  The
attempt counters (internal retry churn) are not part of the view. -/
def taskStatusViewOf (t : RenderTaskRecord) : TaskStatusView :=
  { status := t.status.toStatusString
    artifactPath := if t.status = .completed then t.artifactPath else none
    error := if t.status = .failed then some (t.errorSummary.getD "Render failed") else none }

/-- Modelled from the spec: `getTaskStatus(taskId)`, the status-read
API (`GET /api/render/tasks/{taskId}`); its backend implementation is
not among the shipped sources.  Looks the task up and serves its
status view. -/
def getTaskStatus (tasks : List RenderTaskRecord) (taskId : String) :
    Option TaskStatusView :=
  (tasks.find? fun t => t.taskId == taskId).map taskStatusViewOf

/-- The value `isComplete` of the frontend `useRenderTask` hook:
`query.data?.status === 'SUCCESS'`. -/
def useRenderTaskIsComplete (status : String) : Bool :=
  status == "SUCCESS"

/-- The value `isFailed` of the frontend `useRenderTask` hook:
`query.data?.status === 'FAILURE'`. -/
def useRenderTaskIsFailed (status : String) : Bool :=
  status == "FAILURE"

/-- The `refetchInterval` of the frontend `useRenderTask` hook: poll every
2000 ms while the returned status is `'PENDING'` or `'STARTED'`,
otherwise stop polling (`false` is modelled as `none`). -/
def useRenderTaskRefetchInterval (status : String) : Option Nat :=
  if status == "PENDING" || status == "STARTED" then some 2000 else none

/-! ## Profile Store -/

/-- Profile record of the Profile Store (the shape also appears in the
frontend's `ProfileManager` interface). -/
structure Profile where
  id : String
  name : String
  profile_path : String
  is_active : Bool
deriving DecidableEq, Repr

/-- Modelled from the spec: the Profile Store's persisted state plus
the set of profile ids currently held by running sessions. -/
structure ProfileStoreState where
  profiles : List Profile
  sessionHeldIds : List String
deriving DecidableEq, Repr

/-- Errors of the Profile Store's `delete(id)`. -/
inductive ProfileDeleteError where
  | ProfileInUse
  | NotFound
deriving DecidableEq, Repr

/-- Modelled from the spec: the Profile Store `delete(id)` — fails with
`ProfileInUse` if a session currently holds the profile or its
`is_active` flag is set, deletes it otherwise.  The backend endpoint
implementation is not among the shipped sources. -/
def profileStoreDelete (st : ProfileStoreState) (profileId : String) :
    Except ProfileDeleteError ProfileStoreState :=
  match st.profiles.find? (fun p => p.id == profileId) with
  | none => .error .NotFound
  | some p =>
    if p.is_active || st.sessionHeldIds.contains profileId then
      .error .ProfileInUse
    else
      .ok { st with profiles := st.profiles.filter fun q => !(q.id == profileId) }

/-- Disabled condition of the per-profile delete button in
`ProfileManager.tsx`:
`disabled={deletingId === profile.id || profile.is_active}`. -/
def profileDeleteButtonDisabled (deletingId : Option String) (p : Profile) : Bool :=
  deletingId == some p.id || p.is_active

/-! ## Error Classifier -/

/-- An error signal observed during completion polling: either an
infrastructure-level exception (page/context destroyed mid-operation)
or a textual observation from the page (popup/banner/body text), with
the time elapsed since generation was triggered, whether it was
re-observed after the settle delay, and whether its text matches a
recognized fatal pattern. -/
inductive ErrorSignal where
  | infraException (elapsedSec : Nat) (description : String)
  | textObservation (elapsedSec : Nat) (message : String)
      (persistsAfterSettle : Bool) (matchesFatalPattern : Bool)
deriving DecidableEq, Repr

/-- Elapsed time since generation trigger at which the signal was
observed. -/
def ErrorSignal.elapsedSec : ErrorSignal → Nat
  | .infraException e _ => e
  | .textObservation e _ _ _ => e

/-- Classification outcomes of the Error Classifier. -/
inductive Classification where
  | Ignore
  | RetryableTransient
  | Persistent (message : String)
deriving DecidableEq, Repr

/-- Grace period after generation trigger during which every signal is
ignored (10 s). -/
def gracePeriodSec : Nat := 10

/-- Settle delay after which a candidate error must be re-observed (2 s). -/
def settleDelaySec : Nat := 2

/-- Minimum length an error message must have to be treated as real
(10 characters). -/
def minErrorMessageLength : Nat := 10

/-- Known generic/ambiguous fragments that are never error text: the
bare product name and standalone generic words. -/
def genericErrorFragments : List String := ["flow", "error", "failed", "loading"]

/-- Whether a message equals (case-insensitively) a known generic
fragment. -/
def isGenericFragment (msg : String) : Bool :=
  genericErrorFragments.contains msg.toLower

/-- Modelled from the spec: `classify(signal)` of the Error Classifier
(its implementation lives in the backend `flow_controller`, which is
not among the shipped sources).  Rule order follows the documented
fixes: the grace-period check runs before any error detection;
infrastructure exceptions are retryable; short or generic messages are
ignored regardless of persistence; a candidate that has disappeared by
the settle re-check is ignored; recognized fatal patterns are
persistent; everything else is ignored. -/
def classify (sig : ErrorSignal) : Classification :=
  if sig.elapsedSec < gracePeriodSec then .Ignore
  else
    match sig with
    | .infraException _ _ => .RetryableTransient
    | .textObservation _ msg persists fatal =>
      if msg.length < minErrorMessageLength || isGenericFragment msg then .Ignore
      else if !persists then .Ignore
      else if fatal then .Persistent msg
      else .Ignore

/-! ## Navigation Controller -/

/-- Top-level views of the target UI's navigation state machine. -/
inductive NavView where
  | UNKNOWN
  | GALLERY
  | EDITOR_READY
deriving DecidableEq, Repr

/-- Page-level actions the Navigation Controller performs while
ensuring an editor. -/
inductive NavAction where
  | clickHomeAffordance
  | reloadTargetUrl
  | clickNewProject
deriving DecidableEq, Repr

/-- A navigation session: the last-known view, the identity of the
current editor state (bumped every time a new project is created, so
that reuse of an editor is observable), a counter supplying fresh
identities, and whether the in-app home affordance is available. -/
structure NavSession where
  view : NavView
  editorStateId : Nat
  nextFreshId : Nat
  homeAffordanceAvailable : Bool
deriving DecidableEq, Repr

/-- Freshness invariant of a navigation session: the current editor
state identity was drawn from the fresh-identity counter. -/
def NavSession.wf (s : NavSession) : Prop :=
  s.editorStateId < s.nextFreshId

/-- Modelled from the spec: `ensureEditor(session, forceNew)` of the
Navigation Controller (`ensure_new_project` in the backend
`flow_controller`, which is not among the shipped sources).  With
`forceNew` set and the page already in an editor-like state, the
controller first forces navigation back to the gallery — via the
in-app home affordance, or a full reload of the target URL when that
affordance is unavailable — and only then creates a new project; the
resulting editor state is always a fresh one.  Without `forceNew`, an
existing editor is reused. -/
def ensureEditor (s : NavSession) (forceNew : Bool) :
    List NavAction × NavSession :=
  if forceNew then
    let galleryNav : List NavAction :=
      if s.view = .EDITOR_READY then
        if s.homeAffordanceAvailable then [.clickHomeAffordance]
        else [.reloadTargetUrl]
      else if s.view = .GALLERY then []
      else [.reloadTargetUrl]
    (galleryNav ++ [.clickNewProject],
     { s with view := .EDITOR_READY, editorStateId := s.nextFreshId,
              nextFreshId := s.nextFreshId + 1 })
  else
    match s.view with
    | .EDITOR_READY => ([], s)
    | .GALLERY =>
      ([.clickNewProject],
       { s with view := .EDITOR_READY, editorStateId := s.nextFreshId,
                nextFreshId := s.nextFreshId + 1 })
    | .UNKNOWN =>
      ([.reloadTargetUrl, .clickNewProject],
       { s with view := .EDITOR_READY, editorStateId := s.nextFreshId,
                nextFreshId := s.nextFreshId + 1 })

/-- Whether an action navigates the page back to the gallery view. -/
def NavAction.navigatesToGallery : NavAction → Bool
  | .clickHomeAffordance => true
  | .reloadTargetUrl => true
  | .clickNewProject => false

/-! ## Generation Driver trigger handling -/

/-- Outcome of completion polling (`awaitCompletion`): an artifact, a
persistent error, or a timeout. -/
inductive PollResult where
  | artifact (path : String)
  | persistentError (message : String)
  | timeout
deriving DecidableEq, Repr

/-- What the orchestrator did with the advisory `trigger` results
before entering completion polling. -/
structure TriggerPhaseResult where
  reinjectionRetries : Nat
  proceededToPolling : Bool
  abortedByTrigger : Bool
deriving DecidableEq, Repr

/-- Modelled from the spec: the orchestrator's handling of the
advisory `trigger(session)` boolean in `render_manager.render_scene`
(not among the shipped sources).  A `false` first result causes one
re-injection retry; polling proceeds regardless of either result and
the trigger outcome never aborts the flow. -/
def triggerPhase (firstTrigger _retryTrigger : Bool) : TriggerPhaseResult :=
  if firstTrigger then
    { reinjectionRetries := 0, proceededToPolling := true, abortedByTrigger := false }
  else
    { reinjectionRetries := 1, proceededToPolling := true, abortedByTrigger := false }

/-- Modelled from the spec: the terminal task status produced by one
render attempt — completion polling is the sole authority on success,
so the status is a function of the poll outcome alone; the advisory
trigger results are threaded through `triggerPhase` and reported
alongside. -/
def renderSceneOutcome (firstTrigger retryTrigger : Bool)
    (poll : PollResult) : TaskStatus × TriggerPhaseResult :=
  let tp := triggerPhase firstTrigger retryTrigger
  (match poll with
   | .artifact _ => .completed
   | .persistentError _ => .failed
   | .timeout => .failed, tp)

/-! ## Theorems -/

/-- C10: for every project id and store state, `getScenesByProject`
returns exactly the stored scenes whose `project_id` equals the given
id, sorted in ascending order of their `number` field, and does not
modify the store state. -/
theorem getScenesByProject_spec (st : SceneStoreState) (projectId : String) :
    (getScenesByProject st projectId).2 = st ∧
    ((getScenesByProject st projectId).1).Pairwise
      (fun a b => a.number ≤ b.number) ∧
    (∀ s : Scene, s ∈ (getScenesByProject st projectId).1 ↔
      s ∈ st.scenes ∧ s.project_id = projectId) := by
  refine ⟨rfl, ?_, ?_⟩
  · have h := @List.sorted_mergeSort Scene
      (fun a b : Scene => decide (a.number ≤ b.number))
      (fun a b c hab hbc => by
        simp only [decide_eq_true_eq] at hab hbc ⊢; omega)
      (fun a b => by
        simp only [Bool.or_eq_true, decide_eq_true_eq]; omega)
      (st.scenes.filter fun s => s.project_id == projectId)
    exact h.imp fun hab => by simpa using hab
  · intro s
    show s ∈ ((st.scenes.filter fun s => s.project_id == projectId).mergeSort _) ↔ _
    rw [(List.mergeSort_perm _ _).mem_iff, List.mem_filter]
    simp

/-- C2: the exported `ApiClient` instance defines none of the members
`render.renderAll`, `scripts`, `projects.generateScriptFromParameters`
or `aiConfig` that `handleRenderAll`, `useScript`/`useGenerateScript`
and the settings page call, so every such call reaches its error
branch (an access of an undefined member). -/
theorem api_missing_members :
    (callApiMember "render" "renderAll").isOk = false ∧
    (callApiMember "projects" "generateScriptFromParameters").isOk = false ∧
    (callApiMember "scripts" "get").isOk = false ∧
    (callApiMember "aiConfig" "get").isOk = false ∧
    frontendRequiredApiMembers.all
      (fun m => !(callApiMember m.1 m.2).isOk) = true := by
  exact ⟨rfl, rfl, rfl, rfl, rfl⟩

/-- C9: for every response with `ok = false`, `ApiClient.request`
rejects with the body's `detail` field — or with
`HTTP {status}: {statusText}` when the body cannot be parsed as JSON,
or `API request failed` when the detail is empty or absent — and for
every ok response whose `content-type` header does not include
`application/json`, `request` resolves to the empty object. -/
theorem request_spec (r : HttpResponse) :
    (r.ok = false →
      request r = .rejected
        (match r.jsonBody with
         | none => "HTTP " ++ toString r.status ++ ": " ++ r.statusText
         | some b =>
            if b.detail.getD "" = "" then "API request failed"
            else b.detail.getD "")) ∧
    (r.ok = true → contentTypeIsJson r = false →
      request r = .resolved emptyJsonObject) := by
  constructor
  · intro hok
    unfold request
    rw [hok]
    cases hb : r.jsonBody with
    | none =>
      have hne : ("HTTP " ++ toString r.status ++ ": " ++ r.statusText) ≠ "" := by
        intro h
        have hlen := congrArg String.length h
        simp [String.length_append] at hlen
        exact absurd hlen.1.1.1 (by decide)
      simp [hne]
    | some b =>
      by_cases hd : b.detail.getD "" = ""
      · simp [hd]
      · simp [hd]
  · intro hok hct
    unfold request
    rw [hok]
    unfold contentTypeIsJson at hct
    cases hc : r.contentType with
    | none => simp
    | some ct =>
      rw [hc] at hct
      simp only [] at hct
      simp [hct]

/-- Closed witness for C9: a 404 response with an unparseable body is
rejected with the HTTP fallback message. -/
theorem request_spec_witness :
    request { ok := false, status := 404, statusText := "Not Found",
              contentType := none, jsonBody := none } =
      .rejected "HTTP 404: Not Found" := by
  have h := (request_spec { ok := false, status := 404, statusText := "Not Found",
                            contentType := none, jsonBody := none }).1 rfl
  exact h.trans (by rfl)

/-- C1 counterexample: status transitions are not monotonic — for the
store holding a scene in terminal status `failed`, the Render button is
enabled again and a successful render request writes status
`rendering` back to that scene. -/
theorem statusMonotonic_counterexample :
    ¬ statusMonotonicRenderClaim ∧
    isTerminalStatus "failed" = true ∧
    renderButtonDisabled "failed" = false ∧
    (uiRenderStep storeFailedExample "scene-1").scenes.map Scene.status =
      ["rendering"] := by
  refine ⟨?_, rfl, rfl, rfl⟩
  intro h
  have h1 := h storeFailedExample "scene-1" sceneFailedExample rfl rfl
  have h2 : uiRenderStep storeFailedExample "scene-1" ≠ storeFailedExample := by
    decide
  exact h2 h1

/-- C1 amended: status transitions are monotonic out of `completed`
(and the render flow never touches a scene already `rendering`): the
Render button is disabled for those scenes, so no status write occurs
for them.  A scene in terminal status `failed`, however, has its
Render action re-enabled, and a successful render request writes
status `rendering` back to it. -/
theorem statusMonotonic_amended :
    (∀ (st : SceneStoreState) (sceneId : String) (s : Scene),
      st.scenes.find? (fun x => x.id == sceneId) = some s →
      s.status = "completed" ∨ s.status = "rendering" →
      uiRenderStep st sceneId = st) ∧
    renderButtonDisabled "failed" = false ∧
    (uiRenderStep storeFailedExample "scene-1").scenes.map Scene.status =
      ["rendering"] := by
  refine ⟨?_, rfl, rfl⟩
  intro st sceneId s hfind hstat
  unfold uiRenderStep
  rw [hfind]
  have hdis : renderButtonDisabled s.status = true := by
    rcases hstat with h | h <;> simp [renderButtonDisabled, h]
  simp [hdis]

/-- A scene in terminal status `completed`. -/
def sceneCompletedExample : Scene :=
  { id := "scene-2", project_id := "proj-1", number := 2,
    prompt := "a sunset over the sea", status := "completed" }

/-- A store holding exactly the completed scene. -/
def storeCompletedExample : SceneStoreState := ⟨[sceneCompletedExample]⟩

/-- Closed witness for the amended C1: the render flow leaves a store
holding only a completed scene unchanged. -/
theorem statusMonotonic_amended_witness :
    uiRenderStep storeCompletedExample "scene-2" = storeCompletedExample :=
  statusMonotonic_amended.1 storeCompletedExample "scene-2"
    sceneCompletedExample rfl (Or.inl rfl)

/-- C3: for every submitted task id, the status-read operation returns
a record `{status, artifactPath?, error?}` whose status is one of
exactly the four task statuses, with a single consolidated error
string exactly on failure; the attempt counters (internal retry churn)
never influence the view; and the frontend `useRenderTask` hook
instead compares the returned status against `'PENDING'`,
`'STARTED'`, `'SUCCESS'` and `'FAILURE'`, none of which a served
status ever matches. -/
theorem getTaskStatus_spec :
    (∀ (tasks : List RenderTaskRecord) (taskId : String) (v : TaskStatusView),
      getTaskStatus tasks taskId = some v →
      (v.status = "pending" ∨ v.status = "rendering" ∨
       v.status = "completed" ∨ v.status = "failed") ∧
      (v.status = "failed" ↔ v.error.isSome = true) ∧
      useRenderTaskIsComplete v.status = false ∧
      useRenderTaskIsFailed v.status = false ∧
      useRenderTaskRefetchInterval v.status = none) ∧
    (∀ (t : RenderTaskRecord) (a b : Nat),
      taskStatusViewOf { t with navAttempts := a, genAttempts := b } =
        taskStatusViewOf t) := by
  constructor
  · intro tasks taskId v hv
    unfold getTaskStatus at hv
    cases hfind : tasks.find? (fun t => t.taskId == taskId) with
    | none => rw [hfind] at hv; exact absurd hv (by simp)
    | some t =>
      rw [hfind] at hv
      simp only [Option.map_some'] at hv
      have hv' := Option.some.inj hv
      subst hv'
      cases ht : t.status <;>
        simp [taskStatusViewOf, TaskStatus.toStatusString, ht,
              useRenderTaskIsComplete, useRenderTaskIsFailed,
              useRenderTaskRefetchInterval]
  · intro t a b
    rfl

/-- A failed render task record with nonzero retry counters. -/
def failedTaskExample : RenderTaskRecord :=
  { taskId := "task-1", sceneId := "scene-1", projectId := "proj-1",
    prompt := "a lion walking", status := .failed, artifactPath := none,
    errorSummary := some "You need more AI credits to complete this request",
    navAttempts := 4, genAttempts := 1 }

/-- Closed witness for C3: the view served for the failed example task
has one of the four statuses and carries its consolidated error. -/
theorem getTaskStatus_spec_witness :
    (taskStatusViewOf failedTaskExample).status = "pending" ∨
    (taskStatusViewOf failedTaskExample).status = "rendering" ∨
    (taskStatusViewOf failedTaskExample).status = "completed" ∨
    (taskStatusViewOf failedTaskExample).status = "failed" :=
  (getTaskStatus_spec.1 [failedTaskExample] "task-1"
    (taskStatusViewOf failedTaskExample) rfl).1

/-- C4: for every profile, the Profile Store `delete` fails with
`ProfileInUse` if a session currently holds the profile or its
`is_active` flag is set; it succeeds exactly when the profile is
neither active nor held, and then removes it; and the frontend delete
button is disabled for an active profile. -/
theorem profileStoreDelete_spec (st : ProfileStoreState) (p : Profile)
    (hfind : st.profiles.find? (fun q => q.id == p.id) = some p) :
    ((p.is_active = true ∨ st.sessionHeldIds.contains p.id = true) →
      profileStoreDelete st p.id = .error .ProfileInUse) ∧
    (p.is_active = false → st.sessionHeldIds.contains p.id = false →
      profileStoreDelete st p.id =
        .ok { st with profiles := st.profiles.filter fun q => !(q.id == p.id) }) ∧
    (∀ st', profileStoreDelete st p.id = .ok st' →
      p.is_active = false ∧ st.sessionHeldIds.contains p.id = false ∧
      st'.profiles.find? (fun q => q.id == p.id) = none) ∧
    (∀ deletingId, p.is_active = true →
      profileDeleteButtonDisabled deletingId p = true) := by
  refine ⟨?_, ?_, ?_, ?_⟩
  · intro h
    have hc : (p.is_active || st.sessionHeldIds.contains p.id) = true := by
      rcases h with h | h
      · rw [h]; rfl
      · rw [h]; simp
    simp only [profileStoreDelete, hfind, hc, if_true]
  · intro ha hh
    have hc : (p.is_active || st.sessionHeldIds.contains p.id) = false := by
      rw [ha, hh]; rfl
    simp only [profileStoreDelete, hfind, hc, Bool.false_eq_true, if_false]
  · intro st' hok
    simp only [profileStoreDelete, hfind] at hok
    by_cases hc : (p.is_active || st.sessionHeldIds.contains p.id) = true
    · rw [if_pos hc] at hok
      exact absurd hok (by simp)
    · rw [if_neg hc] at hok
      simp only [Bool.or_eq_true, not_or, Bool.not_eq_true] at hc
      refine ⟨hc.1, hc.2, ?_⟩
      simp only [Except.ok.injEq] at hok
      subst hok
      rw [List.find?_eq_none]
      intro q hq
      have := (List.mem_filter.mp hq).2
      simpa using this
  · intro deletingId ha
    simp [profileDeleteButtonDisabled, ha]

/-- An inactive, unheld profile. -/
def idleProfileExample : Profile :=
  { id := "prof-1", name := "My Profile", profile_path := "profiles/prof-1",
    is_active := false }

/-- An active profile. -/
def activeProfileExample : Profile :=
  { id := "prof-2", name := "Work Profile", profile_path := "profiles/prof-2",
    is_active := true }

/-- A profile store holding the idle and the active profile, with a
session holding the active one. -/
def profileStoreExample : ProfileStoreState :=
  { profiles := [idleProfileExample, activeProfileExample],
    sessionHeldIds := ["prof-2"] }

/-- Closed witness for C4: deleting the active profile of the example
store fails with `ProfileInUse`. -/
theorem profileStoreDelete_spec_witness :
    profileStoreDelete profileStoreExample "prof-2" =
      .error .ProfileInUse :=
  (profileStoreDelete_spec profileStoreExample activeProfileExample rfl).1
    (Or.inl rfl)

/-- C5: every error signal observed strictly less than 10 seconds
after generation is triggered is classified `Ignore`, regardless of
its content; no other outcome is possible inside the grace period. -/
theorem classify_gracePeriod (sig : ErrorSignal)
    (h : sig.elapsedSec < gracePeriodSec) : classify sig = .Ignore := by
  unfold classify
  rw [if_pos h]

/-- Closed witness for C5: a fatal-looking, persistent signal at 3 s
is still ignored. -/
theorem classify_gracePeriod_witness :
    classify (.textObservation 3
      "You need more AI credits to complete this request" true true) =
      .Ignore :=
  classify_gracePeriod
    (.textObservation 3
      "You need more AI credits to complete this request" true true)
    (by decide)

/-- C6: a signal whose message is shorter than the minimum length
threshold, or equal to a known generic fragment, is classified
`Ignore` and is never classified `Persistent`, even when it persists
past the settle delay. -/
theorem classify_shortOrGeneric (e : Nat) (msg : String)
    (persists fatal : Bool)
    (h : msg.length < minErrorMessageLength ∨ isGenericFragment msg = true) :
    classify (.textObservation e msg persists fatal) = .Ignore ∧
    ∀ m, classify (.textObservation e msg persists fatal) ≠ .Persistent m := by
  have hig : classify (.textObservation e msg persists fatal) = .Ignore := by
    unfold classify
    by_cases hg : (ErrorSignal.textObservation e msg persists fatal).elapsedSec
        < gracePeriodSec
    · rw [if_pos hg]
    · rw [if_neg hg]
      have hc : (decide (msg.length < minErrorMessageLength)
          || isGenericFragment msg) = true := by
        rcases h with h | h
        · simp [h]
        · simp [h]
      simp only [hc, if_true]
  exact ⟨hig, fun m hm => by rw [hig] at hm; exact Classification.noConfusion hm⟩

/-- Closed witness for C6: the bare product name, observed well past
the grace period, persisting and matching a fatal pattern, is still
ignored. -/
theorem classify_shortOrGeneric_witness :
    classify (.textObservation 60 "Flow" true true) = .Ignore :=
  (classify_shortOrGeneric 60 "Flow" true true (Or.inl (by decide))).1

/-- C7: with `forceNew` set and the session already in an editor-like
state, `ensureEditor` first performs a gallery navigation (the in-app
home affordance or a full reload of the target URL) before creating a
new project, and the resulting editor state is never the one the call
started with; two sequential `forceNew` calls always produce distinct
editor states. -/
theorem ensureEditor_forceNew_spec (s : NavSession) (hwf : s.wf) :
    (s.view = .EDITOR_READY →
      ∃ a : NavAction, a.navigatesToGallery = true ∧
        (ensureEditor s true).1 = [a, .clickNewProject]) ∧
    (ensureEditor s true).2.wf ∧
    (ensureEditor s true).2.editorStateId ≠ s.editorStateId ∧
    (ensureEditor (ensureEditor s true).2 true).2.editorStateId ≠
      (ensureEditor s true).2.editorStateId := by
  unfold NavSession.wf at hwf
  refine ⟨?_, ?_, ?_, ?_⟩
  · intro hview
    by_cases hh : s.homeAffordanceAvailable
    · exact ⟨.clickHomeAffordance, rfl, by simp [ensureEditor, hview, hh]⟩
    · exact ⟨.reloadTargetUrl, rfl, by simp [ensureEditor, hview, hh]⟩
  · simp only [ensureEditor, if_true, NavSession.wf]
    omega
  · simp only [ensureEditor, if_true]
    omega
  · simp only [ensureEditor, if_true]
    omega

/-- An editor-like navigation session satisfying the freshness
invariant. -/
def navSessionExample : NavSession :=
  { view := .EDITOR_READY, editorStateId := 0, nextFreshId := 1,
    homeAffordanceAvailable := true }

/-- Closed witness for C7: a forced call on the example editor session
does not reuse its editor state. -/
theorem ensureEditor_forceNew_spec_witness :
    (ensureEditor navSessionExample true).2.editorStateId ≠
      navSessionExample.editorStateId :=
  (ensureEditor_forceNew_spec navSessionExample
    (show (0 : Nat) < 1 by decide)).2.2.1

/-- C8: a `false` trigger result never aborts the flow and never by
itself fails the task — the orchestrator performs at most one
re-injection retry and proceeds to completion polling regardless, and
the terminal task status is decided by the poll outcome alone. -/
theorem renderSceneOutcome_spec (firstTrigger retryTrigger : Bool)
    (poll : PollResult) :
    (renderSceneOutcome firstTrigger retryTrigger poll).2.proceededToPolling
        = true ∧
    (renderSceneOutcome firstTrigger retryTrigger poll).2.abortedByTrigger
        = false ∧
    (renderSceneOutcome firstTrigger retryTrigger poll).2.reinjectionRetries
        ≤ 1 ∧
    (renderSceneOutcome false retryTrigger poll).1 =
      (renderSceneOutcome true true poll).1 := by
  cases firstTrigger <;> cases poll <;>
    simp [renderSceneOutcome, triggerPhase]

end VeoFlow
